import Mathlib

/-!
Verification of the josetsu customer-record management tool.

The development shallowly embeds the TypeScript source of the repository:
the customer data model (src/types), the list-view search/filter/sort engine
(CustomerList, function filteredAndSortedCustomers), the map-view display
filter and marker synchronisation (CustomerMap), the form controller
(CustomerForm: submit geocoding, postal-code lookup trigger), and the record
store operations (App: handleSubmit create/update).

Conventions of the embedding: JavaScript strings become String, numbers that
the program only stores, copies, defaults and compares become Int, optional
values become Option, and every asynchronous collaborator (geocoding, postal
lookup, routing) is passed in as an explicit function or result value.
-/

namespace Josetsu

/-! ## Data model (src/types: Customer, SearchParams) -/

/-- Enumerated contract tier, from the union type of Customer.contract_type. -/
inductive ContractType
  | basic
  | premium
  | custom
deriving DecidableEq, Repr

/-- Runtime string value of a contract tier, as stored and compared by the
JavaScript code. -/
def ContractType.toStr : ContractType → String
  | .basic => "basic"
  | .premium => "premium"
  | .custom => "custom"

/-- Customer record, from the Customer interface in src/types. The optional
latitude and longitude fields become Option Int; a JavaScript value of null
or undefined is none. -/
structure Customer where
  id : String
  name : String
  postal_code : String
  address : String
  phone : String
  email : String
  contract_type : ContractType
  snow_removal_area : Int
  contract_start_date : String
  contract_end_date : String
  billing_amount : Int
  lat : Option Int
  lng : Option Int
  created_at : String
  updated_at : String
deriving DecidableEq, Repr

/-! ## JavaScript string primitives used by the source -/

/-- Lexicographic code-unit comparison of character lists, the semantics of
the JavaScript less-than operator on strings: a proper prefix is smaller,
otherwise the first differing character decides. -/
def strLtB : List Char → List Char → Bool
  | _, [] => false
  | [], _ :: _ => true
  | a :: as, b :: bs =>
    if a < b then true else if b < a then false else strLtB as bs

/-- JavaScript string less-than. -/
def jsLt (a b : String) : Bool :=
  strLtB a.data b.data

/-- Substring containment on character lists: some split point of s starts
with sub. -/
def containsSub (s sub : List Char) : Bool :=
  (List.range (s.length + 1)).any (fun i => sub.isPrefixOf (s.drop i))

/-- JavaScript String.prototype.includes. -/
def strIncludes (s sub : String) : Bool :=
  containsSub s.data sub.data

/-- JavaScript String.prototype.toLowerCase, modelled characterwise with the
ASCII lowering of Char.toLower (all concrete inputs in the claims are
ASCII). -/
def lowerStr (s : String) : String :=
  ⟨s.data.map Char.toLower⟩

/-! ## Search/Filter Engine (CustomerList: filteredAndSortedCustomers) -/

/-- Search predicates of the list view, from the SearchParams interface.
A missing key is none; the empty string is the cleared input field. -/
structure SearchParams where
  name : Option String := none
  postal_code : Option String := none
  address : Option String := none
  phone : Option String := none
  contract_type : Option String := none
deriving DecidableEq, Repr

/-- JavaScript truthiness of an optional string field: undefined and the
empty string are falsy. -/
def activeOpt (o : Option String) : Bool :=
  !(o.getD "").isEmpty

/-- Name predicate of the engine: case-insensitive substring match. -/
def nameMatch (ps : SearchParams) (c : Customer) : Bool :=
  strIncludes (lowerStr c.name) (lowerStr (ps.name.getD ""))

/-- Postal-code predicate of the engine: plain substring match. -/
def postalMatch (ps : SearchParams) (c : Customer) : Bool :=
  strIncludes c.postal_code (ps.postal_code.getD "")

/-- Address predicate of the engine: case-insensitive substring match. -/
def addressMatch (ps : SearchParams) (c : Customer) : Bool :=
  strIncludes (lowerStr c.address) (lowerStr (ps.address.getD ""))

/-- Phone predicate of the engine: plain substring match. -/
def phoneMatch (ps : SearchParams) (c : Customer) : Bool :=
  strIncludes c.phone (ps.phone.getD "")

/-- Contract-tier predicate of the engine: strict string equality. -/
def ctMatch (ps : SearchParams) (c : Customer) : Bool :=
  c.contract_type.toStr == ps.contract_type.getD ""

/-- One conditional filtering step of the engine: when the predicate value is
truthy the list is filtered, otherwise it is passed through unchanged. -/
def condFilter (bc : Bool) (p : Customer → Bool) (l : List Customer) : List Customer :=
  if bc then l.filter p else l

/-- The five sequential filtering steps of filteredAndSortedCustomers, in
source order: name, postal code, address, phone, contract type. -/
def applyFilters (ps : SearchParams) (cs : List Customer) : List Customer :=
  condFilter (activeOpt ps.contract_type) (ctMatch ps)
    (condFilter (activeOpt ps.phone) (phoneMatch ps)
      (condFilter (activeOpt ps.address) (addressMatch ps)
        (condFilter (activeOpt ps.postal_code) (postalMatch ps)
          (condFilter (activeOpt ps.name) (nameMatch ps) cs))))

/-- Sort keys the list view offers (the three clickable column headers). -/
inductive SortField
  | name
  | postal_code
  | address
deriving DecidableEq, Repr

/-- Sort direction state of the list view. -/
inductive SortDirection
  | asc
  | desc
deriving DecidableEq, Repr

/-- Value of the sort key on a record. -/
def fieldVal : SortField → Customer → String
  | .name, c => c.name
  | .postal_code, c => c.postal_code
  | .address, c => c.address

/-- The comparator passed to Array.prototype.sort by the engine: three-way
result from the two JavaScript less-than tests, with the sign flipped for the
descending direction. -/
def sortCmp (f : SortField) (dir : SortDirection) (a b : Customer) : Int :=
  if jsLt (fieldVal f a) (fieldVal f b) then
    match dir with | .asc => -1 | .desc => 1
  else if jsLt (fieldVal f b) (fieldVal f a) then
    match dir with | .asc => 1 | .desc => -1
  else 0

/-- Order relation induced by the comparator: a sorts no later than b when
the comparator result is nonpositive. -/
abbrev sortRel (f : SortField) (dir : SortDirection) (a b : Customer) : Prop :=
  sortCmp f dir a b ≤ 0

/-- The sort of the engine. Array.prototype.sort is specified stable since
ES2019, so it is embedded as a stable sorting algorithm for the comparator
relation. -/
def sortCustomers (f : SortField) (dir : SortDirection) (l : List Customer) : List Customer :=
  l.insertionSort (sortRel f dir)

/-- The complete engine, CustomerList.filteredAndSortedCustomers: the five
conditional filters followed by the comparator sort. -/
def filteredAndSortedCustomers (ps : SearchParams) (f : SortField) (dir : SortDirection)
    (cs : List Customer) : List Customer :=
  sortCustomers f dir (applyFilters ps cs)

/-- Specification-side predicate: a record satisfies all supplied predicates
conjoined, an absent or empty predicate value imposing no constraint on its
field. -/
def MatchesAll (ps : SearchParams) (c : Customer) : Prop :=
  (activeOpt ps.name = true → nameMatch ps c = true) ∧
  (activeOpt ps.postal_code = true → postalMatch ps c = true) ∧
  (activeOpt ps.address = true → addressMatch ps c = true) ∧
  (activeOpt ps.phone = true → phoneMatch ps c = true) ∧
  (activeOpt ps.contract_type = true → ctMatch ps c = true)

instance (ps : SearchParams) (c : Customer) : Decidable (MatchesAll ps c) := by
  unfold MatchesAll
  infer_instance

/-- True of the search-parameter state exactly when some filtering step
reassigns the local variable of the engine away from the input array. -/
def anyFilterActive (ps : SearchParams) : Bool :=
  activeOpt ps.name || activeOpt ps.postal_code || activeOpt ps.address ||
    activeOpt ps.phone || activeOpt ps.contract_type

/-- Contents of the callers array after filteredAndSortedCustomers runs.
In the source, filtered starts as an alias of the customers array and is
replaced by a fresh array only by an active filtering step; the final
Array.prototype.sort then sorts the aliased array in place. Hence the input
array ends up sorted whenever no predicate was active, and unchanged
otherwise. -/
def inputAfterFilterSort (ps : SearchParams) (f : SortField) (dir : SortDirection)
    (cs : List Customer) : List Customer :=
  if anyFilterActive ps then cs else sortCustomers f dir cs

/-! ## Map Synchronizer (CustomerMap) -/

/-- Filter panel state of the map view, from the FilterOptions interface.
The source keeps each numeric bound as a string where the empty string is the
inactive bound and a filled field is parsed with Number; the embedding keeps
the parsed bound directly, none standing for the empty inactive field. -/
structure FilterOptions where
  contractType : Option String := none
  minSnowArea : Option Int := none
  maxSnowArea : Option Int := none
  minBilling : Option Int := none
  maxBilling : Option Int := none
deriving DecidableEq, Repr

/-- Display predicate of the map view: free-text match on name or address
(case-insensitive), AND contract-tier equality, AND the snow-area and
billing range bounds, each bound skipped when inactive. -/
def mapMatches (q : String) (fo : FilterOptions) (c : Customer) : Bool :=
  (q.isEmpty || strIncludes (lowerStr c.name) (lowerStr q) ||
      strIncludes (lowerStr c.address) (lowerStr q)) &&
  (!(activeOpt fo.contractType) || c.contract_type.toStr == fo.contractType.getD "") &&
  ((match fo.minSnowArea with | none => true | some n => decide (n ≤ c.snow_removal_area)) &&
   (match fo.maxSnowArea with | none => true | some n => decide (c.snow_removal_area ≤ n))) &&
  ((match fo.minBilling with | none => true | some n => decide (n ≤ c.billing_amount)) &&
   (match fo.maxBilling with | none => true | some n => decide (c.billing_amount ≤ n)))

/-- The display subset of the map view, CustomerMap.filteredCustomers. -/
def filteredCustomersMap (cs : List Customer) (q : String) (fo : FilterOptions) : List Customer :=
  cs.filter (mapMatches q fo)

/-- Records for which the marker synchronisation effect creates a marker:
the display subset restricted to records whose lat and lng are both
non-null. -/
def markerCustomers (cs : List Customer) (q : String) (fo : FilterOptions) : List Customer :=
  (filteredCustomersMap cs q fo).filter (fun c => c.lat.isSome && c.lng.isSome)

/-- State of the info popups of one marker generation: the open popup
windows in opening order, and the activeInfoWindow component state. Windows
are identified by the index of their marker. -/
structure PopupState where
  openWindows : List Nat
  activeInfoWindow : Option Nat
deriving DecidableEq, Repr

/-- The click listener attached to a marker. The listener closure of the
source reads the binding activeInfoWindow of the render in which the effect
attached it, so captured is that snapshot value, fixed for the whole marker
generation; setActiveInfoWindow only changes the state later renders see.
The handler closes the captured window if any, opens its own info window and
records it as active. -/
def clickMarker (captured : Option Nat) (w : Nat) (s : PopupState) : PopupState :=
  let afterClose :=
    match captured with
    | some cw => s.openWindows.filter (fun x => x != cw)
    | none => s.openWindows
  { openWindows := afterClose.filter (fun x => x != w) ++ [w]
    activeInfoWindow := some w }

/-- A sequence of marker clicks within one marker generation. -/
def runClicks (captured : Option Nat) (clicks : List Nat) (s : PopupState) : PopupState :=
  clicks.foldl (fun st w => clickMarker captured w st) s

/-- Route request handed to the external routing collaborator. -/
structure RouteRequest where
  origin : Int × Int
  destination : Int × Int
  waypoints : List (Int × Int)
deriving DecidableEq, Repr

/-- Coordinate pair of a record as the route computation reads it. The
source uses non-null assertions on lat and lng; the embedding defaults the
asserted accesses to 0, which is only reachable for records lacking
coordinates. -/
def coordOf (c : Customer) : Int × Int :=
  (c.lat.getD 0, c.lng.getD 0)

/-- CustomerMap.calculateRoute: returns the request given to the routing
collaborator, or none when the call returns early. The guard requires the
map and the directions renderer to be loaded and at least two selected
records; the first selected record is the origin, the last the destination,
and the records in between the waypoints. -/
def calculateRoute (mapLoaded rendererLoaded : Bool) (sel : List Customer) : Option RouteRequest :=
  match sel with
  | a :: b :: rest =>
    if mapLoaded && rendererLoaded then
      some { origin := coordOf a
             destination := coordOf ((b :: rest).getLastD a)
             waypoints := ((b :: rest).dropLast).map coordOf }
    else none
  | _ => none

/-- Options of the route-selection list box: the display subset restricted
to records with both coordinates. -/
def routeOptions (filtered : List Customer) : List Customer :=
  filtered.filter (fun c => c.lat.isSome && c.lng.isSome)

/-- Selection change handler of the route list box: keeps the displayed
records whose id is among the selected option values. -/
def updateSelection (filtered : List Customer) (ids : List String) : List Customer :=
  filtered.filter (fun c => ids.contains c.id)

/-! ## Form Controller (CustomerForm, and the postal-code normaliser of
CustomerList) -/

/-- Character conversion of toHalfWidth: full-width digits map to ASCII
digits, the four dash variants map to the ASCII hyphen. -/
def toHalfWidthChar (c : Char) : Char :=
  if 0xFF10 ≤ c.val ∧ c.val ≤ 0xFF19 then Char.ofNat (c.toNat - 0xFEE0)
  else if c.val = 0x2010 ∨ c.val = 0xFF0D ∨ c.val = 0x2015 ∨ c.val = 0x30FC then '-'
  else c

/-- CustomerList.toHalfWidth. -/
def toHalfWidth (s : String) : String :=
  ⟨s.data.map toHalfWidthChar⟩

/-- True for the characters kept by the first replace of formatPostalCode. -/
def isDigitOrHyphen (c : Char) : Bool :=
  (decide ( '0' ≤ c) && decide (c ≤ '9')) || c == '-'

/-- CustomerList.formatPostalCode: half-width conversion, drop everything
except digits and hyphens, then drop the hyphens. -/
def formatPostalCode (v : String) : String :=
  let half := toHalfWidth v
  let numbers : String := ⟨half.data.filter isDigitOrHyphen⟩
  ⟨numbers.data.filter (fun c => c != '-')⟩

/-- Draft record of the form controller, the Partial Customer state held by
CustomerForm.formData. A missing key is none. -/
structure Draft where
  id : Option String := none
  name : Option String := none
  postal_code : Option String := none
  address : Option String := none
  phone : Option String := none
  email : Option String := none
  contract_type : Option ContractType := none
  snow_removal_area : Option Int := none
  contract_start_date : Option String := none
  contract_end_date : Option String := none
  billing_amount : Option Int := none
  lat : Option Int := none
  lng : Option Int := none
  created_at : Option String := none
  updated_at : Option String := none
deriving DecidableEq, Repr

/-- CustomerForm.handlePostalCodeChange, up to the decision whether the
postal-lookup collaborator is invoked: the draft stores the raw input, and
the lookup fires exactly when the raw input length is 7, carrying the raw
input as the query. The second component is the issued query, none when no
lookup is made. -/
def handlePostalCodeChange (code : String) (fd : Draft) : Draft × Option String :=
  ({ fd with postal_code := some code },
   if code.length = 7 then some code else none)

/-- CustomerForm.handleSubmit: when the draft address is truthy the geocoding
collaborator is consulted and a returned coordinate pair overwrites lat and
lng; a failed or empty geocoding result leaves the draft untouched. The
returned draft is what onSubmit receives; the function is total, so
submission is never blocked. -/
def handleFormSubmit (geocode : String → Option (Int × Int)) (fd : Draft) : Draft :=
  if activeOpt fd.address then
    match geocode (fd.address.getD "") with
    | some co => { fd with lat := some co.1, lng := some co.2 }
    | none => fd
  else fd

/-! ## Record Store (App: handleSubmit) -/

/-- Creation branch of App.handleSubmit. Every field falls back to a fixed
default under the JavaScript or-else operator, which coincides with getD on
these value types; freshId is the generated identifier. The created_at and
updated_at fields come from two separate new Date toISOString evaluations,
modelled as the two clock readings tCreated and tUpdated, in evaluation
order; the program does not constrain the two readings to coincide. -/
def createCustomerAt (tCreated tUpdated : String) (freshId : String) (data : Draft) : Customer :=
  { id := freshId
    name := data.name.getD ""
    postal_code := data.postal_code.getD ""
    address := data.address.getD ""
    phone := data.phone.getD ""
    email := data.email.getD ""
    contract_type := data.contract_type.getD .basic
    snow_removal_area := data.snow_removal_area.getD 0
    contract_start_date := data.contract_start_date.getD ""
    contract_end_date := data.contract_end_date.getD ""
    billing_amount := data.billing_amount.getD 0
    lat := some (data.lat.getD 0)
    lng := some (data.lng.getD 0)
    created_at := tCreated
    updated_at := tUpdated }

/-- Creation under a clock that does not advance during the handler, the
specialisation of createCustomerAt to equal readings. The coordinate claims
use it; they do not involve the timestamp fields. -/
def createCustomer (now : String) (freshId : String) (data : Draft) : Customer :=
  createCustomerAt now now freshId data

/-- Update branch of App.handleSubmit: spread of the stored record under the
draft, so a key present in the draft overrides the stored field, and the
update timestamp is refreshed. -/
def updateCustomer (now : String) (c : Customer) (data : Draft) : Customer :=
  { id := data.id.getD c.id
    name := data.name.getD c.name
    postal_code := data.postal_code.getD c.postal_code
    address := data.address.getD c.address
    phone := data.phone.getD c.phone
    email := data.email.getD c.email
    contract_type := data.contract_type.getD c.contract_type
    snow_removal_area := data.snow_removal_area.getD c.snow_removal_area
    contract_start_date := data.contract_start_date.getD c.contract_start_date
    contract_end_date := data.contract_end_date.getD c.contract_end_date
    billing_amount := data.billing_amount.getD c.billing_amount
    lat := data.lat.or c.lat
    lng := data.lng.or c.lng
    created_at := data.created_at.getD c.created_at
    updated_at := now }

/-! ## Concrete records used in scenarios -/

/-- Blank record used as the base of the concrete scenario records. -/
def baseCustomer : Customer :=
  { id := ""
    name := ""
    postal_code := ""
    address := ""
    phone := ""
    email := ""
    contract_type := .basic
    snow_removal_area := 0
    contract_start_date := ""
    contract_end_date := ""
    billing_amount := 0
    lat := none
    lng := none
    created_at := ""
    updated_at := "" }

/-- Scenario record A of the specification: contract tier basic. -/
def custA : Customer :=
  { baseCustomer with id := "a", name := "A" }

/-- Scenario record B of the specification: contract tier premium. -/
def custB : Customer :=
  { baseCustomer with id := "b", name := "B", contract_type := .premium }

/-- Two records sharing the sort key name, distinguished by phone. -/
def custC : Customer :=
  { baseCustomer with id := "c", name := "Same", phone := "111" }

/-- Second record sharing the sort key name with custC. -/
def custD : Customer :=
  { baseCustomer with id := "d", name := "Same", phone := "222" }

/-- Geocoded record used in the routing scenario. -/
def custE : Customer :=
  { baseCustomer with id := "e", name := "E", lat := some 1, lng := some 2 }

/-- Second geocoded record used in the routing scenario. -/
def custF : Customer :=
  { baseCustomer with id := "f", name := "F", lat := some 3, lng := some 4 }

/-! ## Helper lemmas about the engine -/

/-- Membership in one conditional filtering step. -/
theorem mem_condFilter {bc : Bool} {p : Customer → Bool} {l : List Customer} {c : Customer} :
    c ∈ condFilter bc p l ↔ c ∈ l ∧ (bc = true → p c = true) := by
  cases bc <;> simp [condFilter, List.mem_filter]

/-- Membership in the sequential filters is membership in the input together
with the conjunction of all active predicates. -/
theorem mem_applyFilters {ps : SearchParams} {cs : List Customer} {c : Customer} :
    c ∈ applyFilters ps cs ↔ c ∈ cs ∧ MatchesAll ps c := by
  simp only [applyFilters, mem_condFilter, MatchesAll]
  tauto

/-- The code-unit comparison is irreflexive. -/
theorem strLtB_self : ∀ l : List Char, strLtB l l = false
  | [] => rfl
  | a :: as => by simp [strLtB, strLtB_self as]

/-- JavaScript string less-than is irreflexive. -/
theorem jsLt_self (s : String) : jsLt s s = false :=
  strLtB_self s.data

/-- Records with equal sort keys compare as ties under the comparator. -/
theorem sortCmp_eq_zero_of_eq {f : SortField} {dir : SortDirection} {a b : Customer}
    (h : fieldVal f a = fieldVal f b) : sortCmp f dir a b = 0 := by
  simp [sortCmp, h, jsLt_self]

/-- A pair of records both satisfying the predicate survives a conditional
filtering step as a sublist. -/
theorem pair_sublist_condFilter {x y : Customer} {l : List Customer}
    (bc : Bool) (p : Customer → Bool)
    (hx : bc = true → p x = true) (hy : bc = true → p y = true)
    (h : List.Sublist [x, y] l) : List.Sublist [x, y] (condFilter bc p l) := by
  cases bc
  · simpa [condFilter] using h
  · have h2 := h.filter p
    rw [show List.filter p [x, y] = [x, y] by simp [hx rfl, hy rfl]] at h2
    simpa [condFilter] using h2

/-- A pair of records both satisfying all active predicates survives the
sequential filters as a sublist. -/
theorem pair_sublist_applyFilters {x y : Customer} {ps : SearchParams} {cs : List Customer}
    (hx : MatchesAll ps x) (hy : MatchesAll ps y)
    (h : List.Sublist [x, y] cs) : List.Sublist [x, y] (applyFilters ps cs) := by
  unfold applyFilters
  exact pair_sublist_condFilter _ _ hx.2.2.2.2 hy.2.2.2.2
    (pair_sublist_condFilter _ _ hx.2.2.2.1 hy.2.2.2.1
      (pair_sublist_condFilter _ _ hx.2.2.1 hy.2.2.1
        (pair_sublist_condFilter _ _ hx.2.1 hy.2.1
          (pair_sublist_condFilter _ _ hx.1 hy.1 h))))

/-! ## Claims about the Search/Filter Engine -/

/-- Claim C1: for every record collection and every sparse set of field
predicates, the engine returns exactly the records satisfying all supplied
predicates conjoined (case-insensitive substring on name and address,
substring on phone and postal code, exact match on contract tier), an absent
or empty predicate value imposing no constraint; and the predicate
contract_type premium over the records A (basic) and B (premium) yields
exactly the record B. -/
theorem C1_filter_conjunction :
    (∀ (ps : SearchParams) (f : SortField) (dir : SortDirection)
       (cs : List Customer) (c : Customer),
       c ∈ filteredAndSortedCustomers ps f dir cs ↔ c ∈ cs ∧ MatchesAll ps c) ∧
    filteredAndSortedCustomers { contract_type := some "premium" }
      SortField.name SortDirection.asc [custA, custB] = [custB] := by
  constructor
  · intro ps f dir cs c
    rw [filteredAndSortedCustomers, sortCustomers, List.mem_insertionSort, mem_applyFilters]
  · rfl

/-- Claim C2 evaluation: with no active predicate and an unsorted input, the
input array of the engine ends up reordered in place, because the final
Array.prototype.sort mutates the array that filtered still aliases. -/
theorem C2_input_mutated :
    inputAfterFilterSort {} SortField.name SortDirection.asc [custB, custA] = [custA, custB] ∧
    [custA, custB] ≠ [custB, custA] := by
  exact ⟨rfl, by decide⟩

/-- Claim C9: the sort of the engine is stable: any two records that agree on
the sort key and both survive the filters appear in the output in the same
relative order they had in the input. -/
theorem C9_sort_stable (ps : SearchParams) (f : SortField) (dir : SortDirection)
    (cs : List Customer) {a b : Customer}
    (hkey : fieldVal f a = fieldVal f b)
    (ha : MatchesAll ps a) (hb : MatchesAll ps b)
    (hsub : List.Sublist [a, b] cs) :
    List.Sublist [a, b] (filteredAndSortedCustomers ps f dir cs) := by
  have h1 := pair_sublist_applyFilters ha hb hsub
  have hr : sortRel f dir a b := by
    rw [sortRel, sortCmp_eq_zero_of_eq hkey]
  exact List.pair_sublist_insertionSort hr h1

/-- Witness for C9 at concrete records sharing the sort key name. -/
theorem C9_sort_stable_witness :
    fieldVal SortField.name custC = fieldVal SortField.name custD ∧
    MatchesAll {} custC ∧ MatchesAll {} custD ∧
    List.Sublist [custC, custD] [custC, custD] ∧
    List.Sublist [custC, custD]
      (filteredAndSortedCustomers {} SortField.name SortDirection.asc [custC, custD]) :=
  ⟨rfl, by decide, by decide, List.Sublist.refl _,
   C9_sort_stable {} SortField.name SortDirection.asc [custC, custD]
     rfl (by decide) (by decide) (List.Sublist.refl _)⟩

/-! ## Claims about the Map Synchronizer -/

/-- Claim C3 evaluation: within one marker generation attached while no popup
was open, clicking marker 0 and then marker 1 leaves the popups of both
markers open, because the second listener closes the captured snapshot of
activeInfoWindow rather than the popup the first click opened; the claimed
invariant of at most one open popup fails. -/
theorem C3_two_popups_open :
    (runClicks none [0, 1] { openWindows := [], activeInfoWindow := none }).openWindows = [0, 1] ∧
    2 ≤ (runClicks none [0, 1] { openWindows := [], activeInfoWindow := none }).openWindows.length := by
  exact ⟨rfl, by decide⟩

/-- Claim C7: a record lacking a coordinate never produces a map marker: the
marker set of the synchronisation effect holds exactly the displayed records
having both coordinates. -/
theorem C7_markers_have_coords (cs : List Customer) (q : String) (fo : FilterOptions)
    (c : Customer) :
    c ∈ markerCustomers cs q fo ↔
      c ∈ filteredCustomersMap cs q fo ∧ c.lat.isSome = true ∧ c.lng.isSome = true := by
  simp [markerCustomers, List.mem_filter]

/-- Claim C8: the routing collaborator is invoked only when the selection has
at least two records, a selection of one or none never invokes it, every
selectable record is geocoded (given distinct identifiers and option values
drawn from the geocoded option list), and an issued request takes the first
selected record as origin, the last as destination, and the records in
between as waypoints. -/
theorem C8_routing (m r : Bool) (filtered sel : List Customer) (ids : List String)
    (hsel : sel = updateSelection filtered ids)
    (hnodup : (filtered.map (fun c => c.id)).Nodup)
    (hids : ∀ i ∈ ids, i ∈ (routeOptions filtered).map (fun c => c.id)) :
    (sel.length ≤ 1 → calculateRoute m r sel = none) ∧
    ∀ req, calculateRoute m r sel = some req →
      2 ≤ sel.length ∧
      (∀ c ∈ sel, c.lat.isSome = true ∧ c.lng.isSome = true) ∧
      req.origin = coordOf (sel.headD baseCustomer) ∧
      req.destination = coordOf (sel.getLastD baseCustomer) ∧
      req.waypoints = ((sel.drop 1).dropLast).map coordOf := by
  have hgeo : ∀ c ∈ sel, c.lat.isSome = true ∧ c.lng.isSome = true := by
    intro c hcmem
    rw [hsel, updateSelection, List.mem_filter] at hcmem
    obtain ⟨hcf, hcid⟩ := hcmem
    have hmem : c.id ∈ ids := by simpa using hcid
    have h2 := hids _ hmem
    rw [List.mem_map] at h2
    obtain ⟨o, ho, hoid⟩ := h2
    rw [routeOptions, List.mem_filter] at ho
    obtain ⟨hof, hoco⟩ := ho
    have heq : o = c := List.inj_on_of_nodup_map hnodup hof hcf hoid
    subst heq
    simpa using hoco
  constructor
  · intro hlen
    match sel with
    | [] => rfl
    | [_] => rfl
    | _ :: _ :: _ => simp at hlen
  · intro req hreq
    match sel, hgeo, hreq with
    | a :: b :: rest, hgeo, hreq =>
      rw [calculateRoute] at hreq
      by_cases hmr : (m && r) = true
      · rw [if_pos hmr] at hreq
        obtain rfl := Option.some_injective _ hreq.symm
        refine ⟨by simp, hgeo, rfl, ?_, rfl⟩
        simp only [List.getLastD_eq_getLast?, List.getLast?_cons_cons]
        cases hlast : (b :: rest).getLast? with
        | none => simp at hlast
        | some x => rfl
      · rw [if_neg hmr] at hreq
        exact absurd hreq (by simp)

/-- Witness for C8 at two concrete geocoded records whose identifiers are the
selected option values. -/
theorem C8_routing_witness :
    ([custE, custF] = updateSelection [custE, custF] ["e", "f"] ∧
     (([custE, custF].map (fun c => c.id)).Nodup) ∧
     (∀ i ∈ (["e", "f"] : List String), i ∈ (routeOptions [custE, custF]).map (fun c => c.id))) ∧
    ((([custE, custF] : List Customer).length ≤ 1 →
        calculateRoute true true [custE, custF] = none) ∧
     ∀ req, calculateRoute true true [custE, custF] = some req →
       2 ≤ ([custE, custF] : List Customer).length ∧
       (∀ c ∈ [custE, custF], c.lat.isSome = true ∧ c.lng.isSome = true) ∧
       req.origin = coordOf (([custE, custF]).headD baseCustomer) ∧
       req.destination = coordOf (([custE, custF]).getLastD baseCustomer) ∧
       req.waypoints = ((([custE, custF]).drop 1).dropLast).map coordOf) :=
  ⟨⟨by decide, by decide, by decide⟩,
   C8_routing true true [custE, custF] [custE, custF] ["e", "f"]
     (by decide) (by decide) (by decide)⟩

/-! ## Claims about the Form Controller -/

/-- Claim C4 counterexample: the input 123-4567 normalises to the seven
digits 1234567 under formatPostalCode, yet the form controller issues no
address lookup for it, because the trigger tests the raw input length (8
here) rather than the normalised digit count. -/
theorem C4_counterexample :
    formatPostalCode "123-4567" = "1234567" ∧
    (handlePostalCodeChange "123-4567" {}).2 = none := by
  exact ⟨rfl, rfl⟩

/-- Claim C4 as amended: the controller invokes the address-lookup
collaborator exactly when the raw postal-code input has length 7, storing
the raw input in the draft and passing it unnormalised as the query; the
digits-only normaliser exists in the list component but is not applied by
the form controller, so a seven-character input containing a hyphen
triggers a lookup while 123-4567 does not. -/
theorem C4_trigger_raw_length :
    (∀ (code : String) (fd : Draft),
       ((handlePostalCodeChange code fd).2 = some code ↔ code.length = 7) ∧
       (handlePostalCodeChange code fd).1.postal_code = some code) ∧
    (handlePostalCodeChange "123-456" {}).2 = some "123-456" ∧
    formatPostalCode "123-4567" = "1234567" := by
  refine ⟨fun code fd => ⟨?_, rfl⟩, rfl, rfl⟩
  by_cases h : code.length = 7 <;> simp [handlePostalCodeChange, h]

/-- Claim C6: submitting a draft whose geocoding fails commits the record
with the draft unchanged, coordinates included; and no geocoding outcome
ever changes a field other than the coordinates. Totality of the handler is
the absence of any blocking path. -/
theorem C6_geocode_failure_commits (fd : Draft) :
    handleFormSubmit (fun _ => none) fd = fd ∧
    ∀ geocode : String → Option (Int × Int),
      (handleFormSubmit geocode fd).name = fd.name ∧
      (handleFormSubmit geocode fd).postal_code = fd.postal_code ∧
      (handleFormSubmit geocode fd).address = fd.address ∧
      (handleFormSubmit geocode fd).phone = fd.phone ∧
      (handleFormSubmit geocode fd).email = fd.email ∧
      (handleFormSubmit geocode fd).contract_type = fd.contract_type ∧
      (handleFormSubmit geocode fd).snow_removal_area = fd.snow_removal_area ∧
      (handleFormSubmit geocode fd).contract_start_date = fd.contract_start_date ∧
      (handleFormSubmit geocode fd).contract_end_date = fd.contract_end_date ∧
      (handleFormSubmit geocode fd).billing_amount = fd.billing_amount := by
  constructor
  · rw [handleFormSubmit]
    split <;> rfl
  · intro geocode
    rw [handleFormSubmit]
    split
    · cases geocode (fd.address.getD "") <;> exact ⟨rfl, rfl, rfl, rfl, rfl, rfl, rfl, rfl, rfl, rfl⟩
    · exact ⟨rfl, rfl, rfl, rfl, rfl, rfl, rfl, rfl, rfl, rfl⟩

/-! ## Claims about the Record Store -/

/-- Claim C5 counterexample: the empty draft was never geocoded and carries
no coordinates, yet the record created from it has both coordinates present,
defaulted to 0. -/
theorem C5_counterexample :
    ({} : Draft).lat = none ∧ ({} : Draft).lng = none ∧
    (createCustomer "2025-01-01" "id0" {}).lat = some 0 ∧
    (createCustomer "2025-01-01" "id0" {}).lng = some 0 := by
  exact ⟨rfl, rfl, rfl, rfl⟩

/-- Or of optional values is present exactly when either side is. -/
theorem isSome_or (a b : Option Int) : (a.or b).isSome = (a.isSome || b.isSome) := by
  cases a <;> simp

/-- Claim C5 as amended: creation always sets both coordinates, to the draft
coordinates when present and to the default 0 otherwise, so presence of
coordinates does not imply a successful geocoding; both-present-or-both-
absent is preserved by update whenever the stored record and the draft each
carry their coordinates paired. -/
theorem C5_coords_paired (now freshId : String) (data : Draft) (c : Customer)
    (hd : data.lat.isSome = data.lng.isSome) (hc : c.lat.isSome = c.lng.isSome) :
    ((createCustomer now freshId data).lat.isSome = (createCustomer now freshId data).lng.isSome) ∧
    (createCustomer now freshId data).lat = some (data.lat.getD 0) ∧
    (createCustomer now freshId data).lng = some (data.lng.getD 0) ∧
    ((updateCustomer now c data).lat.isSome = (updateCustomer now c data).lng.isSome) := by
  refine ⟨rfl, rfl, rfl, ?_⟩
  show (data.lat.or c.lat).isSome = (data.lng.or c.lng).isSome
  rw [isSome_or, isSome_or, hd, hc]

/-- Witness for C5 at the empty draft and a geocoded stored record. -/
theorem C5_coords_paired_witness :
    (({} : Draft).lat.isSome = ({} : Draft).lng.isSome) ∧
    (custE.lat.isSome = custE.lng.isSome) ∧
    (((createCustomer "t0" "x0" {}).lat.isSome = (createCustomer "t0" "x0" {}).lng.isSome) ∧
     (createCustomer "t0" "x0" {}).lat = some (({} : Draft).lat.getD 0) ∧
     (createCustomer "t0" "x0" {}).lng = some (({} : Draft).lng.getD 0) ∧
     ((updateCustomer "t0" custE {}).lat.isSome = (updateCustomer "t0" custE {}).lng.isSome)) :=
  ⟨rfl, rfl, C5_coords_paired "t0" "x0" {} custE rfl rfl⟩

/-- Claim C10 counterexample: the creation branch evaluates new Date twice,
once for created_at and once for updated_at; when the millisecond clock
advances between the two readings the two fields differ, so creation does
not always set created_at equal to updated_at. -/
theorem C10_counterexample :
    (createCustomerAt "2025-01-01T00:00:00.000Z" "2025-01-01T00:00:00.001Z" "id0" {}).created_at ≠
      (createCustomerAt "2025-01-01T00:00:00.000Z" "2025-01-01T00:00:00.001Z" "id0" {}).updated_at := by
  decide

/-- Claim C10 as amended: creating a record from any draft always succeeds
(the handler is total) and fills every absent draft field with its fixed
default: empty strings for the text fields, tier basic, 0 for the numeric
fields and for both coordinates; created_at is the first clock reading and
updated_at the second, so the two are equal whenever the clock does not
advance between the reads. -/
theorem C10_create_defaults (tCreated tUpdated freshId : String) (data : Draft) :
    (createCustomerAt tCreated tUpdated freshId data).id = freshId ∧
    (createCustomerAt tCreated tUpdated freshId data).created_at = tCreated ∧
    (createCustomerAt tCreated tUpdated freshId data).updated_at = tUpdated ∧
    (tCreated = tUpdated →
      (createCustomerAt tCreated tUpdated freshId data).created_at =
        (createCustomerAt tCreated tUpdated freshId data).updated_at) ∧
    (data.name = none → (createCustomerAt tCreated tUpdated freshId data).name = "") ∧
    (data.postal_code = none → (createCustomerAt tCreated tUpdated freshId data).postal_code = "") ∧
    (data.address = none → (createCustomerAt tCreated tUpdated freshId data).address = "") ∧
    (data.phone = none → (createCustomerAt tCreated tUpdated freshId data).phone = "") ∧
    (data.email = none → (createCustomerAt tCreated tUpdated freshId data).email = "") ∧
    (data.contract_type = none →
      (createCustomerAt tCreated tUpdated freshId data).contract_type = .basic) ∧
    (data.snow_removal_area = none →
      (createCustomerAt tCreated tUpdated freshId data).snow_removal_area = 0) ∧
    (data.contract_start_date = none →
      (createCustomerAt tCreated tUpdated freshId data).contract_start_date = "") ∧
    (data.contract_end_date = none →
      (createCustomerAt tCreated tUpdated freshId data).contract_end_date = "") ∧
    (data.billing_amount = none →
      (createCustomerAt tCreated tUpdated freshId data).billing_amount = 0) ∧
    (data.lat = none → (createCustomerAt tCreated tUpdated freshId data).lat = some 0) ∧
    (data.lng = none → (createCustomerAt tCreated tUpdated freshId data).lng = some 0) := by
  refine ⟨rfl, rfl, rfl, ?_, ?_, ?_, ?_, ?_, ?_, ?_, ?_, ?_, ?_, ?_, ?_, ?_⟩ <;>
    intro h <;> simp [createCustomerAt, h]

/-- Witness for C10 at equal clock readings and the empty draft: the name
antecedent holds, the defaulted name and the equal timestamps follow by
applying the theorem. -/
theorem C10_create_defaults_witness :
    ({} : Draft).name = none ∧
    (createCustomerAt "t0" "t0" "id0" {}).name = "" ∧
    (createCustomerAt "t0" "t0" "id0" {}).created_at =
      (createCustomerAt "t0" "t0" "id0" {}).updated_at := by
  obtain ⟨-, -, -, hts, hname, -⟩ := C10_create_defaults "t0" "t0" "id0" {}
  exact ⟨rfl, hname rfl, hts rfl⟩

end Josetsu
